import Mathlib

/-!
Verification of the aplhib task-management application.

Shallow embedding of the application's core logic:
* the Task and User document schemas (`src/models/task.js`, `src/unnamed/part_000`),
* the ranking pipeline of `GET /tarefas` (`src/unnamed/part_002`),
* the task CRUD handlers with their permission checks (`src/unnamed/part_003`),
* registration and login (`src/index.js`, auth routes section),
* the auth middleware guards (`src/middleware/authMiddleware.js`),
* the dashboard statistics (`src/unnamed/part_002`).

Mongoose documents are modelled as Lean structures; the MongoDB collections
as Lean lists; ObjectIds and timestamps as naturals; the bcrypt hash as an
opaque function parameter.  Fallible handlers return an explicit status.
-/

namespace Aplhib

/-- A task document, after the schema of `src/models/task.js`:
`titulo` required (≤ 100 chars, trimmed), `descricao` optional (≤ 500 chars),
`concluida : Bool` (default false), `prioridade` one of Baixa/Média/Alta
(default Média; modelled as `Option String` since aggregation treats a missing
field like an unrecognized one), `category` free-form label, `user` the owner's
ObjectId (required), `createdAt` from the timestamps option. -/
structure Task where
  id : Nat
  titulo : String
  descricao : Option String
  concluida : Bool
  prioridade : Option String
  category : Option String
  user : Nat
  createdAt : Nat
deriving DecidableEq, Repr

/-- A user document, after the schema in `src/unnamed/part_000`:
`nome` and `telefone` required and trimmed, `email` unique / lowercased /
trimmed, `password` stores the bcrypt hash, `role` is `user` or `admin`
(default `user`). -/
structure User where
  id : Nat
  nome : String
  telefone : String
  email : String
  password : String
  role : String
deriving DecidableEq, Repr

/-- The data the login handler stores in the session:
`req.session.userId`, `req.session.userRole`, `req.session.userName`. -/
structure Session where
  userId : Nat
  userRole : String
  userName : String
deriving DecidableEq, Repr

/-- The `priorityOrder` field added by the `$switch` stage of the
`GET /tarefas` aggregation (`src/unnamed/part_002`, lines 691-703):
Alta ↦ 3, Média ↦ 2, Baixa ↦ 1, and any other or missing value ↦ 2. -/
def priorityOrder (p : Option String) : Nat :=
  match p with
  | some s => if s = "Alta" then 3 else if s = "Média" then 2 else if s = "Baixa" then 1 else 2
  | none => 2

/-- Numeric value MongoDB gives a boolean sort key (`false` before `true`
under an ascending sort). -/
def bval : Bool → Nat
  | false => 0
  | true => 1

/-- The ordering realized by the `$sort` stage
`{ concluida: 1, priorityOrder: -1, createdAt: -1 }`
(`src/unnamed/part_002`, lines 706-712): ascending on `concluida`, then
descending on `priorityOrder`, then descending on `createdAt`. -/
def taskLE (a b : Task) : Prop :=
  bval a.concluida < bval b.concluida ∨
    (a.concluida = b.concluida ∧
      (priorityOrder b.prioridade < priorityOrder a.prioridade ∨
        (priorityOrder a.prioridade = priorityOrder b.prioridade ∧
          b.createdAt ≤ a.createdAt)))

instance : DecidableRel taskLE := fun a b => by
  unfold taskLE; infer_instance

instance : IsTotal Task taskLE := ⟨by
  intro a b
  unfold taskLE
  cases ha : a.concluida <;> cases hb : b.concluida <;> simp [bval] <;> omega⟩

instance : IsTrans Task taskLE := ⟨by
  intro a b c hab hbc
  unfold taskLE at hab hbc ⊢
  cases ha : a.concluida <;> cases hb : b.concluida <;> cases hc : c.concluida <;>
    simp_all [bval] <;> omega⟩

/-- The ranking stage of the `GET /tarefas` pipeline: sort by the three keys
`concluida` ascending, `priorityOrder` descending, `createdAt` descending. -/
def rank (ts : List Task) : List Task :=
  List.insertionSort taskLE ts

/-- Any `taskLE`-ordered pair satisfies the three pointwise ordering clauses
of the ranking specification. -/
theorem taskLE_strength {a b : Task} (h : taskLE a b) :
    (a.concluida = true → b.concluida = true) ∧
    (a.concluida = b.concluida → priorityOrder b.prioridade ≤ priorityOrder a.prioridade) ∧
    (a.concluida = b.concluida → priorityOrder a.prioridade = priorityOrder b.prioridade →
      b.createdAt ≤ a.createdAt) := by
  unfold taskLE at h
  cases ha : a.concluida <;> cases hb : b.concluida <;> simp_all [bval] <;> omega

/-- `String.trim`, as the schema's `trim` setter: drop whitespace at both
ends (implemented over the character list so that proofs can evaluate it). -/
def strTrim (s : String) : String :=
  ⟨((s.toList.dropWhile Char.isWhitespace).reverse.dropWhile Char.isWhitespace).reverse⟩

/-- `String.toLowerCase`, as the schema's `lowercase` setter (implemented
over the character list so that proofs can evaluate it). -/
def strLower (s : String) : String :=
  ⟨s.toList.map Char.toLower⟩

/-- A request body for the task endpoints.  `Object.assign`/destructuring only
see the keys the client sent, so every field is optional; `none` means the key
is absent from the body. -/
structure TaskBody where
  titulo : Option String := none
  descricao : Option String := none
  concluida : Option Bool := none
  prioridade : Option String := none
  category : Option String := none
  user : Option Nat := none
deriving DecidableEq, Repr

/-- `Object.assign(task, req.body)` (`src/unnamed/part_003`, line 276): each
key present in the body overwrites the document's field — including `user`.
The schema's `trim` setters run on assigned string fields. -/
def objectAssign (t : Task) (b : TaskBody) : Task :=
  { t with
    titulo := match b.titulo with | some s => strTrim s | none => t.titulo
    descricao := match b.descricao with | some s => some (strTrim s) | none => t.descricao
    concluida := match b.concluida with | some c => c | none => t.concluida
    prioridade := match b.prioridade with | some p => some p | none => t.prioridade
    category := match b.category with | some c => some c | none => t.category
    user := match b.user with | some u => u | none => t.user }

/-- The document validation `task.save()` runs (schema of
`src/models/task.js`): `titulo` required and at most 100 characters,
`descricao` at most 500 characters, `prioridade` in the Baixa/Média/Alta
enum when set. -/
def validTask (t : Task) : Bool :=
  t.titulo ≠ "" && t.titulo.length ≤ 100 &&
    (t.descricao.getD "").length ≤ 500 &&
    (match t.prioridade with
     | none => true
     | some p => p == "Baixa" || p == "Média" || p == "Alta")

/-- `Task.findById(id)` over the collection (ids are unique in MongoDB). -/
def findTask (store : List Task) (id : Nat) : Option Task :=
  store.find? (fun t => t.id == id)

/-- Outcome of an API task mutation: 200, 404, 403 or 400. -/
inductive ApiStatus where
  | ok
  | notFound
  | forbidden
  | badRequest
deriving DecidableEq, Repr

/-- `PUT /api/tarefas/:id` (`src/unnamed/part_003`, lines 261-282): look the
task up (404 when absent), then check `userIsAdmin`/`userIsOwner` (403 when
neither), then `Object.assign(task, req.body)` and `task.save()` which
re-validates (400 on a validation error, otherwise the stored document is
replaced). -/
def putTarefa (store : List Task) (sess : Session) (id : Nat) (body : TaskBody) :
    ApiStatus × List Task :=
  match findTask store id with
  | none => (.notFound, store)
  | some task =>
    let userIsAdmin := sess.userRole == "admin"
    let userIsOwner := task.user == sess.userId
    if !userIsAdmin && !userIsOwner then (.forbidden, store)
    else if validTask (objectAssign task body) then
      (.ok, store.map (fun t => if t.id == id then objectAssign t body else t))
    else (.badRequest, store)

/-- `DELETE /api/tarefas/:id` (`src/unnamed/part_003`, lines 289-309): look
the task up (404 when absent), check `userIsAdmin`/`userIsOwner` (403 when
neither), then `Task.deleteOne({ _id: id })`. -/
def deleteTarefa (store : List Task) (sess : Session) (id : Nat) :
    ApiStatus × List Task :=
  match findTask store id with
  | none => (.notFound, store)
  | some task =>
    let userIsAdmin := sess.userRole == "admin"
    let userIsOwner := task.user == sess.userId
    if !userIsAdmin && !userIsOwner then (.forbidden, store)
    else (.ok, store.eraseP (fun t => t.id == id))

/-- `POST /api/tarefas` (`src/unnamed/part_003`, lines 177-200): destructure
only `titulo`, `descricao`, `prioridade`, `category` from the body, set
`user` from `req.session.userId`, let the schema apply the defaults
(`concluida := false`, `prioridade := Média` when absent) and validate on
save; `none` is the 400 validation-error path. -/
def postTarefa (sess : Session) (body : TaskBody) (id now : Nat) : Option Task :=
  let t : Task :=
    { id := id
      titulo := strTrim (body.titulo.getD "")
      descricao := body.descricao.map strTrim
      concluida := false
      prioridade := some (body.prioridade.getD "Média")
      category := body.category
      user := sess.userId
      createdAt := now }
  if validTask t then some t else none

/-- The session-scoped `GET /tarefas` page listing (`src/unnamed/part_002`,
lines 686-713): `$match { user: req.session.userId }`, then the
priority/completion sort. -/
def listTarefasPage (store : List Task) (uid : Nat) : List Task :=
  rank (store.filter (fun t => t.user == uid))

/-- A category page listing such as `GET /tarefas`/`/tcc`/`/trabalho`/`/carro`
(`src/unnamed/part_002`, lines 85-131): `$match { category: cat }` — no owner
filter — then the priority/completion sort.  (The `$lookup`/`$unwind` stage
with `preserveNullAndEmptyArrays` only decorates each task with its owner's
document and keeps every task.) -/
def listByCategory (store : List Task) (cat : String) : List Task :=
  rank (store.filter (fun t => t.category == some cat))

/-- The two-key ordering of `Task.find().sort({ concluida: 1, createdAt: -1 })`
used by `GET /api/tarefas` (`src/unnamed/part_003`, lines 41-51). -/
def apiLE (a b : Task) : Prop :=
  bval a.concluida < bval b.concluida ∨
    (a.concluida = b.concluida ∧ b.createdAt ≤ a.createdAt)

instance : DecidableRel apiLE := fun a b => by
  unfold apiLE; infer_instance

/-- `GET /api/tarefas` (`src/unnamed/part_003`, lines 41-51): every task in
the collection, sorted — no owner filter at all. -/
def apiListTarefas (store : List Task) : List Task :=
  List.insertionSort apiLE store

/-- The `lowercase` and `trim` setters of the user schema's email field
(`src/unnamed/part_000`, lines 15-22). -/
def normalizeEmail (e : String) : String :=
  strLower (strTrim e)

/-- The schema's email pattern `/.+\@.+\..+/` (unanchored): some `@` at
position ≥ 1 is followed, at distance ≥ 2, by a `.` that still has at least
one character after it. -/
def emailOk (e : String) : Bool :=
  let cs := e.toList
  let n := cs.length
  (List.range n).any (fun i =>
    decide (1 ≤ i) && cs.getD i ' ' == '@' &&
      (List.range n).any (fun j =>
        decide (i + 2 ≤ j) && decide (j + 2 ≤ n) && cs.getD j ' ' == '.'))

/-- Outcome of `POST /cadastro`. -/
inductive RegisterResult where
  | duplicate
  | invalid
  | created (u : User)
deriving DecidableEq, Repr

/-- `POST /cadastro` (`src/index.js`, auth routes, lines 415-450) combined
with the user schema: first `User.findOne({ email })` — the store-level
duplicate check over normalized emails (schema: `unique`, `lowercase`,
`trim`) — then `newUser.save()`, whose schema validation requires `nome`,
`telefone`, a pattern-matching email and a password of at least 6
characters, hashes the password with the opaque `hashFn`, and stores the
new user with the default role `user`. -/
def register (users : List User) (nome telefone email password : String)
    (hashFn : String → String) (newId : Nat) : RegisterResult × List User :=
  let nEmail := normalizeEmail email
  if (users.find? (fun u => u.email == nEmail)).isSome then
    (.duplicate, users)
  else if strTrim nome = "" ∨ strTrim telefone = "" ∨ ¬ emailOk nEmail ∨
      password.length < 6 then
    (.invalid, users)
  else
    let newUser : User :=
      { id := newId, nome := strTrim nome, telefone := strTrim telefone,
        email := nEmail, password := hashFn password, role := "user" }
    (.created newUser, users ++ [newUser])

/-- Outcome of `POST /login`: either the session data the handler stores
and the redirect, or the login page rendered again with an error message. -/
inductive LoginResult where
  | failure (message : String)
  | success (userId : Nat) (userRole userName : String)
deriving DecidableEq, Repr

/-- `POST /login` (`src/index.js`, auth routes, lines 466-495):
`User.findOne({ email })`, then `user.matchPassword(password)` (the opaque
bcrypt comparison `matches`); the single branch
`if (!user || !(await user.matchPassword(password)))` renders the same
`E-mail ou senha inválidos.` error for a missing user and for a wrong
password; on success the session gets userId, role and name. -/
def login (users : List User) (matchPw : String → String → Bool)
    (email password : String) : LoginResult :=
  match users.find? (fun u => u.email == normalizeEmail email) with
  | none => .failure "E-mail ou senha inválidos."
  | some user =>
    if matchPw password user.password then .success user.id user.role user.nome
    else .failure "E-mail ou senha inválidos."

/-- Result of a page route: a rendered page or a redirect. -/
inductive PageResult where
  | page (name : String)
  | redirect (path : String)
deriving DecidableEq, Repr

/-- `GET /cadastro` (`src/index.js`, auth routes, line 406) behind the
`isGuest` middleware (`src/middleware/authMiddleware.js`, lines 27-33): a
logged-in session is redirected to `/tarefas`, a guest gets the form. -/
def getCadastro (sess : Option Session) : PageResult :=
  if sess.isSome then .redirect "/tarefas" else .page "cadastro"

/-- `POST /cadastro` (`src/index.js`, auth routes, line 415): the route has
no `isGuest` guard — the handler never consults the session and simply runs
the registration. -/
def postCadastro (_sess : Option Session) (users : List User)
    (nome telefone email password : String) (hashFn : String → String)
    (newId : Nat) : RegisterResult × List User :=
  register users nome telefone email password hashFn newId

/-- The dashboard statistics record (`src/unnamed/part_002`,
lines 314-319). -/
structure Stats where
  total : Nat
  concluidas : Nat
  pendentes : Nat
  percentual : Nat
deriving DecidableEq, Repr

/-- `GET /dashboard` (`src/unnamed/part_002`, lines 311-319):
`total = allTasks.length`, `concluidas` counts the completed tasks,
`pendentes = total - concluidas`, and
`percentual = total > 0 ? Math.round((concluidas / total) * 100) : 0`.
`Math.round` is round-half-up, so over the naturals
`round(100·c/t) = ⌊(200·c + t) / (2·t)⌋`. -/
def dashboardStats (ts : List Task) : Stats :=
  let total := ts.length
  let concluidas := (ts.filter (fun t => t.concluida)).length
  let pendentes := total - concluidas
  let percentual := if total > 0 then (200 * concluidas + total) / (2 * total) else 0
  { total := total, concluidas := concluidas, pendentes := pendentes,
    percentual := percentual }

end Aplhib

open Aplhib

/-- C1: the ranked listing is a permutation of its input on which every
incomplete task precedes every completed one; at equal completion status
priority weight (Alta = 3, Média = 2, Baixa = 1, anything else 2) is
descending; at equal completion status and weight, creation timestamp is
descending; the empty set yields the empty sequence. -/
theorem C1_ranking_order (ts : List Task) :
    rank [] = [] ∧
    priorityOrder (some "Alta") = 3 ∧
    priorityOrder (some "Média") = 2 ∧
    priorityOrder (some "Baixa") = 1 ∧
    (∀ p : Option String, p ≠ some "Alta" → p ≠ some "Média" → p ≠ some "Baixa" →
      priorityOrder p = 2) ∧
    (rank ts).Perm ts ∧
    (rank ts).Pairwise (fun a b =>
      (a.concluida = true → b.concluida = true) ∧
      (a.concluida = b.concluida →
        priorityOrder b.prioridade ≤ priorityOrder a.prioridade) ∧
      (a.concluida = b.concluida →
        priorityOrder a.prioridade = priorityOrder b.prioridade →
          b.createdAt ≤ a.createdAt)) := by
  refine ⟨rfl, rfl, rfl, rfl, ?_, ?_, ?_⟩
  · intro p h1 h2 h3
    cases p with
    | none => rfl
    | some s =>
      simp only [ne_eq, Option.some.injEq] at h1 h2 h3
      simp [priorityOrder, h1, h2, h3]
  · exact List.perm_insertionSort taskLE ts
  · exact List.Pairwise.imp (fun h => taskLE_strength h)
      (List.sorted_insertionSort taskLE ts)

/-- Sample task used by witnesses and counterexamples: task 1, incomplete,
priority Alta, category Tarefa, owned by user 10, created at time 100. -/
def t1 : Task :=
  { id := 1, titulo := "Estudar", descricao := none, concluida := false,
    prioridade := some "Alta", category := some "Tarefa", user := 10,
    createdAt := 100 }

/-- Sample session of the owner of `t1` (userId 10, role user). -/
def sAna : Session := { userId := 10, userRole := "user", userName := "Ana" }

/-- Sample session of a non-admin who does not own `t1` (userId 20). -/
def sBob : Session := { userId := 20, userRole := "user", userName := "Bob" }

/-- C2: an update or delete of an existing task by an identity that is
neither admin nor the task's owner yields 403 and leaves the store
unmodified, and either operation reports success only when the identity
is admin or the owner. -/
theorem C2_mutation_authz (store : List Task) (sess : Session) (id : Nat)
    (body : TaskBody) (t : Task) (hfind : findTask store id = some t) :
    ((sess.userRole ≠ "admin" ∧ t.user ≠ sess.userId) →
      putTarefa store sess id body = (ApiStatus.forbidden, store) ∧
      deleteTarefa store sess id = (ApiStatus.forbidden, store)) ∧
    ((putTarefa store sess id body).fst = ApiStatus.ok →
      sess.userRole = "admin" ∨ t.user = sess.userId) ∧
    ((deleteTarefa store sess id).fst = ApiStatus.ok →
      sess.userRole = "admin" ∨ t.user = sess.userId) := by
  have hdenied : ∀ (hr : (sess.userRole == "admin") = false)
      (hu : (t.user == sess.userId) = false),
      putTarefa store sess id body = (ApiStatus.forbidden, store) ∧
      deleteTarefa store sess id = (ApiStatus.forbidden, store) := by
    intro hr hu
    constructor <;> simp [putTarefa, deleteTarefa, hfind, hr, hu]
  refine ⟨?_, ?_, ?_⟩
  · rintro ⟨hr, hu⟩
    exact hdenied (beq_eq_false_iff_ne.mpr hr) (beq_eq_false_iff_ne.mpr hu)
  · intro hok
    by_contra hcon
    push_neg at hcon
    have hd := hdenied (beq_eq_false_iff_ne.mpr hcon.1) (beq_eq_false_iff_ne.mpr hcon.2)
    rw [hd.1] at hok
    exact absurd hok (by simp)
  · intro hok
    by_contra hcon
    push_neg at hcon
    have hd := hdenied (beq_eq_false_iff_ne.mpr hcon.1) (beq_eq_false_iff_ne.mpr hcon.2)
    rw [hd.2] at hok
    exact absurd hok (by simp)

/-- C2 witness: user Bob (id 20, not admin) against task `t1` owned by
user 10 — both mutations are forbidden and the store is unchanged. -/
theorem C2_mutation_authz_witness :
    ((sBob.userRole ≠ "admin" ∧ t1.user ≠ sBob.userId) →
      putTarefa [t1] sBob 1 {} = (ApiStatus.forbidden, [t1]) ∧
      deleteTarefa [t1] sBob 1 = (ApiStatus.forbidden, [t1])) ∧
    ((putTarefa [t1] sBob 1 {}).fst = ApiStatus.ok →
      sBob.userRole = "admin" ∨ t1.user = sBob.userId) ∧
    ((deleteTarefa [t1] sBob 1).fst = ApiStatus.ok →
      sBob.userRole = "admin" ∨ t1.user = sBob.userId) :=
  C2_mutation_authz [t1] sBob 1 {} t1 (by decide)

/-- C6: when the task id is absent from the store, update and delete both
answer 404 for every acting identity and leave the store unchanged; in
particular a nonexistent id never yields 403, the lookup being checked
before the authorization. -/
theorem C6_notfound_before_forbidden (store : List Task) (sess : Session)
    (id : Nat) (body : TaskBody) (h : findTask store id = none) :
    putTarefa store sess id body = (ApiStatus.notFound, store) ∧
    deleteTarefa store sess id = (ApiStatus.notFound, store) ∧
    (putTarefa store sess id body).fst ≠ ApiStatus.forbidden ∧
    (deleteTarefa store sess id).fst ≠ ApiStatus.forbidden := by
  refine ⟨?_, ?_, ?_, ?_⟩ <;> simp [putTarefa, deleteTarefa, h]

/-- C6 witness: id 99 is not in the one-task store, so both operations
answer 404 to Bob and never 403. -/
theorem C6_notfound_before_forbidden_witness :
    putTarefa [t1] sBob 99 {} = (ApiStatus.notFound, [t1]) ∧
    deleteTarefa [t1] sBob 99 = (ApiStatus.notFound, [t1]) ∧
    (putTarefa [t1] sBob 99 {}).fst ≠ ApiStatus.forbidden ∧
    (deleteTarefa [t1] sBob 99).fst ≠ ApiStatus.forbidden :=
  C6_notfound_before_forbidden [t1] sBob 99 {} (by decide)

/-- C4 counterexample: the owner herself (Ana) updates task `t1` with a body
that carries a `user` key; the update succeeds and the stored task's owner
becomes 20, while it was 10 before — `Object.assign` copies the client's
`user` field, so the owner IS mutated by this path. -/
theorem C4_owner_frame_cex :
    (putTarefa [t1] sAna 1 { user := some 20 }).fst = ApiStatus.ok ∧
    findTask (putTarefa [t1] sAna 1 { user := some 20 }).snd 1 =
      some { t1 with user := 20 } ∧
    t1.user ≠ 20 := by decide

/-- C4 amended: a successful partial update preserves the task's owner field
whenever the request body does not carry a `user` key — the merge never
touches the owner on its own — but a body that does carry `user` overwrites
it.  (Stated as: the owner column of the whole store is unchanged by
`PUT /api/tarefas/:id` for a `user`-free body, and the field merge itself
fixes `user`.) -/
theorem C4_owner_frame_amended (store : List Task) (sess : Session) (id : Nat)
    (body : TaskBody) (hb : body.user = none) :
    ((putTarefa store sess id body).snd).map Task.user = store.map Task.user ∧
    ∀ t : Task, (objectAssign t body).user = t.user := by
  have huser : ∀ t : Task, (objectAssign t body).user = t.user := by
    intro t
    simp [objectAssign, hb]
  refine ⟨?_, huser⟩
  unfold putTarefa
  cases hf : findTask store id with
  | none => rfl
  | some task =>
    dsimp only
    split
    · rfl
    · split
      · rw [List.map_map]
        refine List.map_congr_left ?_
        intro a _
        by_cases hid : a.id == id <;> simp [Function.comp, hid, huser]
      · rfl

/-- C4 witness: renaming `t1` (body without a `user` key) leaves the owner
column of the store untouched. -/
theorem C4_owner_frame_witness :
    ((putTarefa [t1] sAna 1 { titulo := some "Nova" }).snd).map Task.user =
      [t1].map Task.user ∧
    ∀ t : Task, (objectAssign t { titulo := some "Nova" }).user = t.user :=
  C4_owner_frame_amended [t1] sAna 1 { titulo := some "Nova" } rfl

/-- C3 counterexample: Bob (userId 20, not admin) requests the category
listing for "Tarefa" and the JSON API listing; both return task `t1`, which
is owned by user 10 — neither handler filters by the caller's id. -/
theorem C3_listing_owner_cex :
    sBob.userRole ≠ "admin" ∧
    t1 ∈ listByCategory [t1] "Tarefa" ∧
    t1 ∈ apiListTarefas [t1] ∧
    t1.user ≠ sBob.userId := by decide

/-- C3 amended: the restriction to the caller's own tasks holds for the
session-filtered `GET /tarefas` page listing — every task it returns is
owned by the session's userId — while the category listings and the JSON
API listing apply no owner filter at all. -/
theorem C3_listing_owner_amended (store : List Task) (uid : Nat) (t : Task)
    (ht : t ∈ listTarefasPage store uid) : t.user = uid := by
  unfold listTarefasPage rank at ht
  have h2 : t ∈ store.filter (fun t => t.user == uid) :=
    ((List.perm_insertionSort taskLE _).mem_iff).mp ht
  have h3 := List.of_mem_filter h2
  simpa using h3

/-- C3 witness: the session-filtered listing for user 10 over the one-task
store returns `t1`, and indeed `t1` is owned by user 10. -/
theorem C3_listing_owner_witness :
    t1 ∈ listTarefasPage [t1] 10 ∧ t1.user = 10 :=
  ⟨by decide, C3_listing_owner_amended [t1] 10 t1 (by decide)⟩

/-- C5: the created task's owner always equals the session identity's
userId, and the handler's result is independent of any `user` field the
client puts in the request body — the client-supplied owner is never read. -/
theorem C5_create_owner_from_session (sess : Session) (body : TaskBody)
    (id now : Nat) :
    (∀ t : Task, postTarefa sess body id now = some t → t.user = sess.userId) ∧
    (∀ u : Option Nat, postTarefa sess { body with user := u } id now =
      postTarefa sess body id now) := by
  constructor
  · intro t ht
    simp only [postTarefa] at ht
    split at ht
    · cases ht
      rfl
    · exact absurd ht (by simp)
  · intro u
    rfl

/-- Sample registered user for the auth witnesses: the stored email is the
normalized form of the address typed at registration, the stored password
is the (sample) hash of the raw secret, the role defaults to user. -/
def uAna : User :=
  { id := 1, nome := "Ana", telefone := "111", email := "ana@mail.com",
    password := "secret", role := "user" }

/-- C7: when an email resolves to a user whose stored hash does not match
the secret, and when an email resolves to no user at all, the login handler
produces the same failure — the single message `E-mail ou senha inválidos.`
— so a caller cannot tell a nonexistent account from a wrong secret. -/
theorem C7_uniform_auth_failure (users : List User)
    (matchPw : String → String → Bool) (e1 pw1 e2 pw2 : String) (u : User)
    (h1 : users.find? (fun v => v.email == normalizeEmail e1) = some u)
    (h2 : matchPw pw1 u.password = false)
    (h3 : users.find? (fun v => v.email == normalizeEmail e2) = none) :
    login users matchPw e1 pw1 = LoginResult.failure "E-mail ou senha inválidos." ∧
    login users matchPw e2 pw2 = login users matchPw e1 pw1 := by
  constructor <;> simp [login, h1, h2, h3]

/-- C7 witness: Ana exists with stored hash `secret`; a wrong secret against
her account and any secret against the unknown `bob@mail.com` yield the
identical failure value. -/
theorem C7_uniform_auth_failure_witness :
    login [uAna] (fun p h => p == h) "ana@mail.com" "wrong" =
      LoginResult.failure "E-mail ou senha inválidos." ∧
    login [uAna] (fun p h => p == h) "bob@mail.com" "anything" =
      login [uAna] (fun p h => p == h) "ana@mail.com" "wrong" :=
  C7_uniform_auth_failure [uAna] (fun p h => p == h) "ana@mail.com" "wrong"
    "bob@mail.com" "anything" uAna (by decide) (by decide) (by decide)

/-- C8: once a registration attempt has created a user, any second attempt
whose email is equal after lowercase normalization is refused as a
duplicate and leaves the user store unchanged. -/
theorem C8_duplicate_email (users : List User)
    (nome1 tel1 email1 pw1 nome2 tel2 email2 pw2 : String)
    (hashFn : String → String) (id1 id2 : Nat) (u : User) (users2 : List User)
    (h1 : register users nome1 tel1 email1 pw1 hashFn id1 =
      (RegisterResult.created u, users2))
    (h2 : normalizeEmail email2 = normalizeEmail email1) :
    register users2 nome2 tel2 email2 pw2 hashFn id2 =
      (RegisterResult.duplicate, users2) := by
  simp only [register] at h1
  split at h1
  · exact absurd h1 (by simp)
  split at h1
  · exact absurd h1 (by simp)
  · rw [Prod.mk.injEq] at h1
    obtain ⟨hu, hs⟩ := h1
    injection hu with hu
    have hemail : u.email = normalizeEmail email1 := by
      rw [← hu]
    have hmem : u ∈ users2 := by
      rw [← hs, ← hu]
      simp
    have hfound : (users2.find? (fun v => v.email == normalizeEmail email2)).isSome
        = true := by
      rw [List.find?_isSome]
      exact ⟨u, hmem, by simp [hemail, h2]⟩
    simp [register, hfound]

/-- C8 witness: registering `Ana@Mail.com` creates Ana (stored lowercase);
a second registration as `ANA@mail.com` is refused as a duplicate and the
store still holds only Ana. -/
theorem C8_duplicate_email_witness :
    register [uAna] "Bob" "222" "ANA@mail.com" "another" (fun s => s) 2 =
      (RegisterResult.duplicate, [uAna]) :=
  C8_duplicate_email [] "Ana" "111" "Ana@Mail.com" "secret" "Bob" "222"
    "ANA@mail.com" "another" (fun s => s) 1 2 uAna [uAna] (by decide) (by decide)

/-- C9 counterexample: for the already-authenticated session of Ana, the GET
registration form is indeed barred, but the POST that creates the account
has no guard: the very same authenticated session registers a fresh email
and a user IS created. -/
theorem C9_registration_guard_cex :
    getCadastro (some sAna) = PageResult.redirect "/tarefas" ∧
    postCadastro (some sAna) [] "Ana" "111" "Ana@Mail.com" "secret" (fun s => s) 1 =
      (RegisterResult.created uAna, [uAna]) := by decide

/-- C9 amended: only the GET half of the registration endpoint is barred for
authenticated identities (the `isGuest` middleware redirects them away);
the POST that creates the account carries no guard — its outcome is
independent of the session, so an authenticated identity can register. -/
theorem C9_registration_guard_amended :
    (∀ s : Session, getCadastro (some s) = PageResult.redirect "/tarefas") ∧
    getCadastro none = PageResult.page "cadastro" ∧
    (∀ (s1 s2 : Option Session) (users : List User)
        (nome tel email pw : String) (hashFn : String → String) (newId : Nat),
      postCadastro s1 users nome tel email pw hashFn newId =
        postCadastro s2 users nome tel email pw hashFn newId) :=
  ⟨fun _ => rfl, rfl, fun _ _ _ _ _ _ _ _ _ => rfl⟩

/-- Any natural is below the rounded-up multiple of a positive divisor:
`a < (a / b + 1) * b`. -/
theorem lt_div_succ_mul (a b : Nat) (h : 0 < b) : a < (a / b + 1) * b := by
  calc a = b * (a / b) + a % b := (Nat.div_add_mod a b).symm
    _ < b * (a / b) + b := Nat.add_lt_add_left (Nat.mod_lt a h) _
    _ = (a / b + 1) * b := by ring

/-- C10: the dashboard statistics are total = number of tasks, concluidas =
number of completed tasks, pendentes the difference, the percentage is the
half-up rounding of 100·concluidas/total when total > 0 (characterized by
the two division bounds) and exactly 0 on the empty store, and it always
lies between 0 and 100 — the guarded division never misbehaves. -/
theorem C10_dashboard_stats (ts : List Task) :
    (dashboardStats ts).total = ts.length ∧
    (dashboardStats ts).concluidas = (ts.filter (fun t => t.concluida)).length ∧
    (dashboardStats ts).concluidas + (dashboardStats ts).pendentes =
      (dashboardStats ts).total ∧
    dashboardStats [] =
      { total := 0, concluidas := 0, pendentes := 0, percentual := 0 } ∧
    (ts.length = 0 → (dashboardStats ts).percentual = 0) ∧
    (dashboardStats ts).percentual ≤ 100 ∧
    (0 < ts.length →
      (dashboardStats ts).percentual * (2 * ts.length) ≤
        200 * (dashboardStats ts).concluidas + ts.length ∧
      200 * (dashboardStats ts).concluidas + ts.length <
        ((dashboardStats ts).percentual + 1) * (2 * ts.length)) := by
  have hc : (ts.filter (fun t => t.concluida)).length ≤ ts.length :=
    List.length_filter_le _ _
  refine ⟨rfl, rfl, ?_, rfl, ?_, ?_, ?_⟩
  · simp only [dashboardStats]
    omega
  · intro h0
    simp [dashboardStats, h0]
  · by_cases hn : 0 < ts.length
    · have hred : (dashboardStats ts).percentual =
          (200 * (ts.filter (fun t => t.concluida)).length + ts.length) /
            (2 * ts.length) := by
        simp [dashboardStats, hn]
      rw [hred]
      have hlt : (200 * (ts.filter (fun t => t.concluida)).length + ts.length) /
          (2 * ts.length) < 101 := by
        rw [Nat.div_lt_iff_lt_mul (by omega : 0 < 2 * ts.length)]
        omega
      omega
    · have h0 : ts.length = 0 := by omega
      simp [dashboardStats, h0]
  · intro hn
    have hred : (dashboardStats ts).percentual =
        (200 * (ts.filter (fun t => t.concluida)).length + ts.length) /
          (2 * ts.length) := by
      simp [dashboardStats, hn]
    rw [hred]
    constructor
    · exact Nat.div_mul_le_self _ _
    · exact lt_div_succ_mul _ _ (by omega)
